import Mathlib

/-!
Shallow embedding of the SATARK-AUTO-SCANNER core pipeline
(src/satark_cloud_v5.py): region classification, land-use verification,
the match-or-insert store operation, and the per-detection scan loop.

Machine floats are modelled as rationals (ℚ). The source sanitizer
safe_float coerces NaN/Infinity to 0.0; neither value exists in ℚ, so the
sanitizer is the identity here. Timestamps are abstract naturals. External
effects (HTTP GET/POST/PATCH to the store, the Overpass oracle call, the
AI analyst, the Telegram broadcast) are modelled by explicit outcome
parameters; the pure state transition on the store is computed exactly as
the source computes its payloads.
-/

namespace Satark

/-- Python substring membership test (the `in` operator on strings):
prefix check on character lists. -/
def listPrefixOf : List Char → List Char → Bool
  | [], _ => true
  | _ :: _, [] => false
  | a :: as, b :: bs => a == b && listPrefixOf as bs

/-- Python substring membership test, body: needle occurs at some position. -/
def listInfixOf (needle : List Char) : List Char → Bool
  | [] => listPrefixOf needle []
  | c :: rest => listPrefixOf needle (c :: rest) || listInfixOf needle rest

/-- Python `needle in hay` on strings. -/
def strContains (hay needle : String) : Bool :=
  listInfixOf needle.data hay.data

/-- Embeds get_region_tag (satark_cloud_v5.py lines 64-68): priority-ordered
inclusive bounding boxes, first match wins, catch-all INDIA_OTHER. -/
def get_region_tag (lat lon : ℚ) : String :=
  if 21.5 ≤ lat ∧ lat ≤ 27.3 ∧ 85.8 ≤ lon ∧ lon ≤ 89.9 then "WEST_BENGAL"
  else if 28.4 ≤ lat ∧ lat ≤ 32.5 ∧ 73.8 ≤ lon ∧ lon ≤ 77.8 then "PUNJAB_HARYANA"
  else if 28.0 ≤ lat ∧ lat ≤ 28.9 ∧ 76.8 ≤ lon ∧ lon ≤ 77.5 then "DELHI_NCR"
  else "INDIA_OTHER"

/-- A row of the persistent `fires` table, with the fields the source reads
and writes (lat, lon, first_seen, last_seen, source, alert_count, frp_mw,
confidence, est_area_m2, location) plus the row id. -/
structure FireEvent where
  id : Nat
  lat : ℚ
  lon : ℚ
  first_seen : Nat
  last_seen : Nat
  source : String
  alert_count : Nat
  frp_mw : ℚ
  confidence : String
  est_area_m2 : ℚ
  location : String
deriving Repr, DecidableEq

/-- The persistent store: the `fires` table rows in insertion order, plus
the next fresh row id. -/
structure DB where
  fires : List FireEvent
  nextId : Nat
deriving Repr, DecidableEq

/-- Embeds line 196: `search_radius = 0.025 if "GK2A" in source else 0.001`. -/
def search_radius (source : String) : ℚ :=
  if strContains source "GK2A" then 0.025 else 0.001

/-- Embeds line 209: `limit_km = 2.5 if "GK2A" in source else 0.1`. -/
def limit_km (source : String) : ℚ :=
  if strContains source "GK2A" then 2.5 else 0.1

/-- Embeds line 243: `pixel_size = 2000000 if "GK2A" in source else 375000`. -/
def pixel_size (source : String) : ℚ :=
  if strContains source "GK2A" then 2000000 else 375000

/-- Embeds the source sanitizer safe_float (lines 216-221). Over ℚ there is
no NaN or Infinity, so the coercion branch is unreachable and the function
is the identity; it is kept so the payload construction mirrors the source. -/
def safe_float (val : ℚ) : ℚ := val

/-- The server-side bounding-box filter of the lookup query (line 200):
`lat=gte.{lat_min}&lat=lte.{lat_max}&lon=gte.{lon_min}&lon=lte.{lon_max}`,
all bounds inclusive. -/
def inBox (lat lon radius : ℚ) (f : FireEvent) : Bool :=
  decide (lat - radius ≤ f.lat) && decide (f.lat ≤ lat + radius) &&
  decide (lon - radius ≤ f.lon) && decide (f.lon ≤ lon + radius)

/-- The candidate acceptance test of line 208-210:
`sqrt((f.lat-lat)^2 + (f.lon-lon)^2) * 111 < limit_km`, encoded without the
square root by comparing squares (equivalent for a positive limit; see
`withinLimit_iff_sqrt` below). -/
def withinLimit (lat lon limit : ℚ) (f : FireEvent) : Bool :=
  decide (((f.lat - lat) ^ 2 + (f.lon - lon) ^ 2) * 111 ^ 2 < limit ^ 2)

/-- Justification of the square-comparison encoding of the distance test:
over the reals, `sqrt d * 111 < L` with `L > 0` is equivalent to
`d * 111^2 < L^2`. -/
theorem withinLimit_iff_sqrt (d L : ℝ) (hd : 0 ≤ d) (hL : 0 < L) :
    Real.sqrt d * 111 < L ↔ d * 111 ^ 2 < L ^ 2 := by
  rw [show (111 : ℝ) ^ 2 = 111 * 111 by ring]
  constructor
  · intro h
    have hs : Real.sqrt d * 111 * (Real.sqrt d * 111) < L * L := by
      apply mul_lt_mul' (le_of_lt h) h _ hL
      positivity
    calc d * (111 * 111) = Real.sqrt d * 111 * (Real.sqrt d * 111) := by
          rw [show Real.sqrt d * 111 * (Real.sqrt d * 111)
              = Real.sqrt d * Real.sqrt d * (111 * 111) by ring,
            Real.mul_self_sqrt hd]
      _ < L * L := hs
      _ = L ^ 2 := by ring
  · intro h
    by_contra hcon
    push_neg at hcon
    have hsq : L ^ 2 ≤ (Real.sqrt d * 111) ^ 2 := by
      apply pow_le_pow_left₀ (le_of_lt hL) hcon
    have : (Real.sqrt d * 111) ^ 2 = d * (111 * 111) := by
      rw [show (Real.sqrt d * 111) ^ 2
          = Real.sqrt d * Real.sqrt d * (111 * 111) by ring,
        Real.mul_self_sqrt hd]
    rw [this] at hsq
    linarith

/-- The list of existing rows the lookup GET returns for the bounding box
(lines 200-204, server-side filtering of the `fires` table). -/
def findExisting (db : DB) (lat lon radius : ℚ) : List FireEvent :=
  db.fires.filter (inBox lat lon radius)

/-- The greedy first-match loop of lines 206-212: the first candidate in
store order whose planar distance is below the source-dependent limit. -/
def findMatch (existing : List FireEvent) (lat lon limit : ℚ) : Option FireEvent :=
  existing.find? (withinLimit lat lon limit)

/-- The PATCH payload built on the MERGE branch (lines 234-239): exactly the
four keys last_seen, frp_mw, source, alert_count. -/
structure MergePayload where
  last_seen : Nat
  frp_mw : ℚ
  source : String
  alert_count : Nat
deriving Repr, DecidableEq

/-- Embeds lines 228-239: the merge payload computation.
`source` follows line 231 (append unless the tag is already a substring),
`frp_mw` follows line 232 (max of stored and sanitized new reading),
`alert_count` follows line 238 (stored count plus one). -/
def mergePayload (m : FireEvent) (now_time : Nat) (source : String)
    (clean_frp : ℚ) : MergePayload :=
  { last_seen := now_time
    frp_mw := max m.frp_mw clean_frp
    source := if strContains m.source source then m.source
              else m.source ++ ", " ++ source
    alert_count := m.alert_count + 1 }

/-- PostgREST PATCH semantics: the keys present in the payload overwrite the
row, every other column is untouched. -/
def applyPatch (f : FireEvent) (p : MergePayload) : FireEvent :=
  { f with last_seen := p.last_seen, frp_mw := p.frp_mw,
           source := p.source, alert_count := p.alert_count }

/-- The PATCH request of line 240: update the row with the matched id. -/
def patchById (db : DB) (rid : Nat) (p : MergePayload) : DB :=
  { db with fires := db.fires.map (fun f => if f.id == rid then applyPatch f p else f) }

/-- The INSERT payload of lines 243-257: a fresh row with
first_seen = last_seen = now, alert_count = 1, and
est_area_m2 = pixel_size * cluster_size * 0.15. -/
def newFireEvent (rid : Nat) (clean_lat clean_lon : ℚ) (now_time : Nat)
    (source : String) (cluster_size : Nat) (region : String)
    (clean_frp : ℚ) (confidence : String) : FireEvent :=
  { id := rid
    lat := clean_lat
    lon := clean_lon
    first_seen := now_time
    last_seen := now_time
    source := source
    alert_count := 1
    frp_mw := clean_frp
    confidence := confidence
    est_area_m2 := safe_float (pixel_size source * cluster_size * 0.15)
    location := region }

/-- Outcome of one external HTTP call: a returned value, or a raised
exception (network error, timeout, malformed body). -/
inductive DBCall (α : Type) where
  | ok : α → DBCall α
  | raise : DBCall α
deriving DecidableEq

/-- The outcomes of the three store interactions inside one
save_fire_event_smart call: the lookup GET (ok true = HTTP 200 with the
box-filtered rows, ok false = non-200 so the source falls back to an empty
candidate list), the merge PATCH, and the insert POST (carrying its HTTP
status code). -/
structure DBBehavior where
  lookupOk : DBCall Bool
  patchCall : DBCall Unit
  postStatus : DBCall Nat
deriving DecidableEq

/-- All store calls succeed: lookup returns HTTP 200, PATCH succeeds, POST
returns 201. -/
def dbOk : DBBehavior :=
  { lookupOk := .ok true, patchCall := .ok (), postStatus := .ok 201 }

/-- Embeds save_fire_event_smart (lines 195-269). Any raised exception is
caught by the try/except and the function returns False with the store
unchanged (lines 266-269). On match it PATCHes the merge payload and
returns False; on no match it POSTs a fresh row and returns True even when
the POST status is not 200/201 (lines 259-264, which only print the
failure), in which case no row is persisted. -/
def save_fire_event_smart (beh : DBBehavior) (db : DB) (lat lon : ℚ)
    (source : String) (cluster_size : Nat) (region : String) (frp : ℚ)
    (confidence : String) (now_time : Nat) : Bool × DB :=
  match beh.lookupOk with
  | .raise => (false, db)
  | .ok got200 =>
    let existing := if got200 then findExisting db lat lon (search_radius source) else []
    let clean_frp := safe_float frp
    let clean_lat := safe_float lat
    let clean_lon := safe_float lon
    match findMatch existing lat lon (limit_km source) with
    | some m =>
      match beh.patchCall with
      | .raise => (false, db)
      | .ok _ => (false, patchById db m.id (mergePayload m now_time source clean_frp))
    | none =>
      match beh.postStatus with
      | .raise => (false, db)
      | .ok s =>
        if s == 200 || s == 201 then
          (true, { fires := db.fires ++
                     [newFireEvent db.nextId clean_lat clean_lon now_time source
                       cluster_size region clean_frp confidence],
                   nextId := db.nextId + 1 })
        else
          (true, db)

/-- C1: submitting the same Detection twice against an initially empty store
(same coordinates, same source, store calls succeeding) inserts on the
first call and merges on the second: the final store holds exactly one
FireEvent and its alert_count is 2. -/
theorem C1_idempotent_upsert (lat lon : ℚ) (source : String)
    (cluster_size : Nat) (region : String) (frp : ℚ) (confidence : String)
    (t1 t2 : Nat) :
    (save_fire_event_smart dbOk ⟨[], 0⟩ lat lon source cluster_size region
        frp confidence t1).1 = true ∧
    (save_fire_event_smart dbOk
        (save_fire_event_smart dbOk ⟨[], 0⟩ lat lon source cluster_size
          region frp confidence t1).2
        lat lon source cluster_size region frp confidence t2).1 = false ∧
    ((save_fire_event_smart dbOk
        (save_fire_event_smart dbOk ⟨[], 0⟩ lat lon source cluster_size
          region frp confidence t1).2
        lat lon source cluster_size region frp confidence t2).2).fires.length = 1 ∧
    ∀ f ∈ ((save_fire_event_smart dbOk
        (save_fire_event_smart dbOk ⟨[], 0⟩ lat lon source cluster_size
          region frp confidence t1).2
        lat lon source cluster_size region frp confidence t2).2).fires,
      f.alert_count = 2 := by
  have hbox : ∀ r : ℚ, 0 < r →
      inBox lat lon r (newFireEvent 0 (safe_float lat) (safe_float lon) t1
        source cluster_size region (safe_float frp) confidence) = true := by
    intro r hr
    simp only [inBox, newFireEvent, safe_float, Bool.and_eq_true, decide_eq_true_eq]
    refine ⟨⟨⟨by linarith, by linarith⟩, by linarith⟩, by linarith⟩
  have hdist : ∀ L : ℚ, 0 < L →
      withinLimit lat lon L (newFireEvent 0 (safe_float lat) (safe_float lon) t1
        source cluster_size region (safe_float frp) confidence) = true := by
    intro L hL
    simp only [withinLimit, newFireEvent, safe_float, decide_eq_true_eq]
    have : ((lat - lat) ^ 2 + (lon - lon) ^ 2) * 111 ^ 2 = 0 := by ring
    rw [this]
    positivity
  cases hgk : strContains source "GK2A" <;>
  · simp only [save_fire_event_smart, dbOk, findExisting, findMatch,
      search_radius, limit_km, hgk, if_true, if_false, Bool.false_eq_true,
      List.filter_nil, List.find?_nil, List.filter_cons, List.filter_append]
    norm_num
    all_goals rw [hbox _ (by norm_num), hdist _ (by norm_num)]
    all_goals simp [patchById, applyPatch, mergePayload, newFireEvent]

/-- An element of the Overpass JSON response; the `tags` key may be absent
(line 94 checks for it before reading). Tags are a key-value dictionary. -/
structure OSMElement where
  tags : Option (List (String × String))
deriving Repr, DecidableEq

/-- Outcome of the Overpass oracle GET (lines 87-91): a raised exception
(network error, timeout, or a body that fails JSON parsing), or an HTTP
status with the parsed element list. -/
inductive OracleResult where
  | raise : OracleResult
  | status : Nat → List OSMElement → OracleResult
deriving DecidableEq

/-- Python dictionary key lookup on a tag set. -/
def tagLookup (tags : List (String × String)) (key : String) : Option String :=
  (tags.find? (fun p => p.1 == key)).map (fun p => p.2)

/-- Embeds the element loop and post-loop checks of lines 92-103: an
`industrial` key returns INDUSTRY at once; `natural = water` returns WATER;
`landuse` values are accumulated; after the loop, any of
industrial/residential/railway yields INDUSTRY, any of
farmland/farm/forest/orchard yields FARM; otherwise UNKNOWN. -/
def classify_tags : List OSMElement → List String → String
  | [], tags_found =>
    if tags_found.any (fun t => t == "industrial" || t == "residential" || t == "railway")
      then "INDUSTRY"
    else if tags_found.any (fun t => t == "farmland" || t == "farm" || t == "forest" || t == "orchard")
      then "FARM"
    else "UNKNOWN"
  | el :: rest, tags_found =>
    match el.tags with
    | none => classify_tags rest tags_found
    | some tags =>
      if (tagLookup tags "industrial").isSome then "INDUSTRY"
      else if tagLookup tags "natural" == some "water" then "WATER"
      else
        match tagLookup tags "landuse" with
        | some v => classify_tags rest (tags_found ++ [v])
        | none => classify_tags rest tags_found

/-- Embeds verify_land_use (lines 73-105). Returns the classification
string together with a flag recording whether the external oracle GET was
issued. The quota gate of lines 74-75 precedes any call; a non-200 status
or a raised exception yields UNKNOWN (lines 89, 104-105). -/
def verify_land_use (lat lon : ℚ) (region : String) (frp : ℚ)
    (oracle : OracleResult) : String × Bool :=
  if region ≠ "WEST_BENGAL" ∧ frp < 20 then ("UNVERIFIED (Quota Saved)", false)
  else
    match oracle with
    | .raise => ("UNKNOWN", true)
    | .status code elems =>
      if code ≠ 200 then ("UNKNOWN", true) else (classify_tags elems [], true)

/-- One normalized detection row of the merged per-cycle batch
(lines 340-343): latitude, longitude, frp, source, conf_score. -/
structure Detection where
  latitude : ℚ
  longitude : ℚ
  frp : ℚ
  source : String
  conf_score : String
deriving Repr, DecidableEq

/-- Observable outcome of one iteration of the scan_sector loop for one
detection: the store afterwards, whether the oracle was called, whether
match-or-insert ran and reported a new event (none when the detection was
filtered out first), whether the AI analyst was invoked, and whether the
Telegram broadcast was sent. -/
structure StepResult where
  db : DB
  oracleCalled : Bool
  saved : Option Bool
  aiInvoked : Bool
  alertSent : Bool
deriving Repr, DecidableEq

/-- Embeds the loop body of scan_sector (lines 340-358): region tagging,
land-use verification, the INDUSTRY/WATER rejection (line 347), the
plausibility rejection `frp > 500 and land_type != "FARM"` (line 348),
match-or-insert with cluster_size fixed at the literal 1 (line 350), and
escalation for new events when the region is WEST_BENGAL or frp > 50, with
the broadcast additionally gated on the AI message not containing FOREIGN
(lines 352-358). The oracle outcome, store behavior and AI message are
explicit parameters. -/
def scan_step (oracle : OracleResult) (beh : DBBehavior) (ai_msg : String)
    (db : DB) (d : Detection) (now_time : Nat) : StepResult :=
  let region := get_region_tag d.latitude d.longitude
  let verified := verify_land_use d.latitude d.longitude region d.frp oracle
  let land_type := verified.1
  if land_type == "INDUSTRY" || land_type == "WATER" then
    { db := db, oracleCalled := verified.2, saved := none,
      aiInvoked := false, alertSent := false }
  else if decide (d.frp > 500) && land_type != "FARM" then
    { db := db, oracleCalled := verified.2, saved := none,
      aiInvoked := false, alertSent := false }
  else
    let r := save_fire_event_smart beh db d.latitude d.longitude d.source 1
      region d.frp d.conf_score now_time
    let escalate := r.1 && (region == "WEST_BENGAL" || decide (d.frp > 50))
    { db := r.2, oracleCalled := verified.2, saved := some r.1,
      aiInvoked := escalate,
      alertSent := escalate && !(strContains ai_msg "FOREIGN") }

/-- The scan_sector loop over the merged detection batch, threading the
store through successive iterations. -/
def scan_cycle (oracle : OracleResult) (beh : DBBehavior) (ai_msg : String)
    (now_time : Nat) : DB → List Detection → DB
  | db, [] => db
  | db, d :: rest =>
    scan_cycle oracle beh ai_msg now_time
      (scan_step oracle beh ai_msg db d now_time).db rest

/-- Over any sequence of merges, the stored frp_mw never decreases: each
merge replaces it with the max of itself and the new reading. -/
theorem frp_foldl_mono (now_time : Nat) (source : String) (frps : List ℚ) :
    ∀ g : FireEvent,
      g.frp_mw ≤ (frps.foldl
        (fun g x => applyPatch g (mergePayload g now_time source (safe_float x)))
        g).frp_mw := by
  induction frps with
  | nil => intro g; simp
  | cons x xs ih =>
    intro g
    refine le_trans ?_ (ih _)
    simp [applyPatch, mergePayload, le_max_left]

/-- C2: on the MERGE branch the patch sets last_seen to now, frp_mw to the
max of the stored value and the sanitized new reading (so frp_mw never
decreases over any sequence of merges), appends the source tag exactly when
it is not already a substring of the stored source, and increments
alert_count by exactly 1; first_seen, latitude and longitude are not in the
payload and are unchanged by the patch. -/
theorem C2_merge_frame (m : FireEvent) (now_time : Nat) (source : String)
    (frp : ℚ) (frps : List ℚ) :
    (applyPatch m (mergePayload m now_time source (safe_float frp))).last_seen
        = now_time ∧
    (applyPatch m (mergePayload m now_time source (safe_float frp))).frp_mw
        = max m.frp_mw (safe_float frp) ∧
    m.frp_mw ≤ (applyPatch m (mergePayload m now_time source (safe_float frp))).frp_mw ∧
    m.frp_mw ≤ (frps.foldl
        (fun g x => applyPatch g (mergePayload g now_time source (safe_float x)))
        m).frp_mw ∧
    (applyPatch m (mergePayload m now_time source (safe_float frp))).source
        = (if strContains m.source source then m.source
           else m.source ++ ", " ++ source) ∧
    (applyPatch m (mergePayload m now_time source (safe_float frp))).alert_count
        = m.alert_count + 1 ∧
    (applyPatch m (mergePayload m now_time source (safe_float frp))).first_seen
        = m.first_seen ∧
    (applyPatch m (mergePayload m now_time source (safe_float frp))).lat = m.lat ∧
    (applyPatch m (mergePayload m now_time source (safe_float frp))).lon = m.lon := by
  refine ⟨rfl, rfl, ?_, frp_foldl_mono now_time source frps m, rfl, rfl, rfl, rfl, rfl⟩
  simp [applyPatch, mergePayload, le_max_left]

/-- C3: the matcher has two radius classes keyed on whether the source tag
contains GK2A: coarse sources use a 0.025-degree box and a 2.5 km limit,
fine sources a 0.001-degree box and a 0.1 km limit. Consequently, against a
store holding one event at (22, 88), a coarse detection 2 km east
(longitude 88 + 2/111) merges into it, while a fine detection at the same
point does not match and inserts a second FireEvent. -/
theorem C3_radius_asymmetry :
    (∀ source : String, search_radius source
        = if strContains source "GK2A" then 0.025 else 0.001) ∧
    (∀ source : String, limit_km source
        = if strContains source "GK2A" then 2.5 else 0.1) ∧
    (save_fire_event_smart dbOk
        ⟨[⟨0, 22, 88, 0, 0, "VIIRS_SNPP", 1, 10, "100%", 0, "WEST_BENGAL"⟩], 1⟩
        22 (88 + 2/111) "GK2A (Real)" 1 "WEST_BENGAL" 30 "EagleEye" 5).1 = false ∧
    ((save_fire_event_smart dbOk
        ⟨[⟨0, 22, 88, 0, 0, "VIIRS_SNPP", 1, 10, "100%", 0, "WEST_BENGAL"⟩], 1⟩
        22 (88 + 2/111) "GK2A (Real)" 1 "WEST_BENGAL" 30 "EagleEye" 5).2).fires.length = 1 ∧
    (save_fire_event_smart dbOk
        ⟨[⟨0, 22, 88, 0, 0, "VIIRS_SNPP", 1, 10, "100%", 0, "WEST_BENGAL"⟩], 1⟩
        22 (88 + 2/111) "VIIRS_SNPP" 1 "WEST_BENGAL" 30 "100%" 5).1 = true ∧
    ((save_fire_event_smart dbOk
        ⟨[⟨0, 22, 88, 0, 0, "VIIRS_SNPP", 1, 10, "100%", 0, "WEST_BENGAL"⟩], 1⟩
        22 (88 + 2/111) "VIIRS_SNPP" 1 "WEST_BENGAL" 30 "100%" 5).2).fires.length = 2 := by
  have hg : strContains "GK2A (Real)" "GK2A" = true := by decide
  have hv : strContains "VIIRS_SNPP" "GK2A" = false := by decide
  have hb1 : inBox 22 (88 + 2/111) 0.025
      ⟨0, 22, 88, 0, 0, "VIIRS_SNPP", 1, 10, "100%", 0, "WEST_BENGAL"⟩ = true := by
    simp only [inBox]
    norm_num
  have hw1 : withinLimit 22 (88 + 2/111) 2.5
      ⟨0, 22, 88, 0, 0, "VIIRS_SNPP", 1, 10, "100%", 0, "WEST_BENGAL"⟩ = true := by
    simp only [withinLimit]
    norm_num
  have hb2 : inBox 22 (88 + 2/111) 0.001
      ⟨0, 22, 88, 0, 0, "VIIRS_SNPP", 1, 10, "100%", 0, "WEST_BENGAL"⟩ = false := by
    simp only [inBox]
    norm_num
  refine ⟨fun _ => rfl, fun _ => rfl, ?_, ?_, ?_, ?_⟩ <;>
    simp [save_fire_event_smart, dbOk, findExisting, findMatch, search_radius,
      limit_km, hg, hv, hb1, hw1, hb2, safe_float, patchById, applyPatch,
      mergePayload, newFireEvent]

/-- A stored event at (22, 88) from the fine sensor, used as a concrete
store row in witnesses. -/
def wbEvent : FireEvent :=
  ⟨0, 22, 88, 0, 0, "VIIRS_SNPP", 1, 10, "100%", 0, "WEST_BENGAL"⟩

/-- A store holding just `wbEvent`. -/
def wbDB : DB := ⟨[wbEvent], 1⟩

/-- A detection at the exact coordinates of `wbEvent`, same source. -/
def wbDetection : Detection := ⟨22, 88, 30, "VIIRS_SNPP", "100%"⟩

/-- C4: if match-or-insert ran and reported a merge (saved = some false),
neither the AI analyst nor the broadcast is invoked for that detection;
conversely, a sent broadcast implies the event was newly inserted. -/
theorem C4_merge_suppresses_alerts (oracle : OracleResult) (beh : DBBehavior)
    (ai_msg : String) (db : DB) (d : Detection) (now_time : Nat) :
    ((scan_step oracle beh ai_msg db d now_time).saved = some false →
      (scan_step oracle beh ai_msg db d now_time).aiInvoked = false ∧
      (scan_step oracle beh ai_msg db d now_time).alertSent = false) ∧
    ((scan_step oracle beh ai_msg db d now_time).alertSent = true →
      (scan_step oracle beh ai_msg db d now_time).saved = some true) := by
  simp only [scan_step]
  split
  · simp
  split
  · simp
  cases hsv : (save_fire_event_smart beh db d.latitude d.longitude d.source 1
      (get_region_tag d.latitude d.longitude) d.frp d.conf_score now_time).1 <;>
    simp [hsv]

/-- C4 witness: a concrete merge (the detection coincides with the stored
event) invokes neither the AI analyst nor the broadcast. -/
theorem C4_merge_suppresses_alerts_witness :
    (scan_step (.status 200 []) dbOk "Confirmed Fire." wbDB wbDetection 5).aiInvoked = false ∧
    (scan_step (.status 200 []) dbOk "Confirmed Fire." wbDB wbDetection 5).alertSent = false := by
  apply (C4_merge_suppresses_alerts (.status 200 []) dbOk "Confirmed Fire."
    wbDB wbDetection 5).1
  have hv : strContains "VIIRS_SNPP" "GK2A" = false := by decide
  have hb : inBox 22 88 (1000⁻¹ : ℚ) wbEvent = true := by
    simp only [inBox, wbEvent]
    norm_num
  have hw : withinLimit 22 88 (10⁻¹ : ℚ) wbEvent = true := by
    simp only [withinLimit, wbEvent]
    norm_num
  norm_num [scan_step, verify_land_use, get_region_tag, classify_tags,
    save_fire_event_smart, dbOk, findExisting, findMatch, search_radius,
    limit_km, hv, wbDB, wbDetection, safe_float]
  simp [hb, hw]

/-- Evaluation of the scan loop body on the first example detection
(22, 88, frp 5, fine sensor) against the empty store: the detection is
inserted with cluster_size 1 (est_area_m2 = 375000 * 1 * 0.15 = 56250). -/
theorem scan5_step1 :
    scan_step (.status 200 []) dbOk "Confirmed Fire." ⟨[], 0⟩
      ⟨22, 88, 5, "VIIRS_SNPP", "100%"⟩ 3
    = ⟨⟨[⟨0, 22, 88, 3, 3, "VIIRS_SNPP", 1, 5, "100%", 56250, "WEST_BENGAL"⟩], 1⟩,
       true, some true, true, true⟩ := by
  have hv : strContains "VIIRS_SNPP" "GK2A" = false := by decide
  have hf : strContains "Confirmed Fire." "FOREIGN" = false := by decide
  norm_num [scan_step, verify_land_use, get_region_tag, classify_tags,
    save_fire_event_smart, dbOk, findExisting, findMatch, search_radius,
    limit_km, hv, hf, safe_float, newFireEvent, pixel_size]
  decide

/-- Evaluation of the scan loop body on the second example detection
(22.001, 88.0008, frp 7, same sensor): the stored first event is inside its
fine search box but 0.142 km away, beyond the 0.1 km limit, so a second
independent row is inserted. -/
theorem scan5_step2 :
    scan_step (.status 200 []) dbOk "Confirmed Fire."
      ⟨[⟨0, 22, 88, 3, 3, "VIIRS_SNPP", 1, 5, "100%", 56250, "WEST_BENGAL"⟩], 1⟩
      ⟨22.001, 88.0008, 7, "VIIRS_SNPP", "100%"⟩ 3
    = ⟨⟨[⟨0, 22, 88, 3, 3, "VIIRS_SNPP", 1, 5, "100%", 56250, "WEST_BENGAL"⟩,
         ⟨1, 22.001, 88.0008, 3, 3, "VIIRS_SNPP", 1, 7, "100%", 56250, "WEST_BENGAL"⟩], 2⟩,
       true, some true, true, true⟩ := by
  have hv : strContains "VIIRS_SNPP" "GK2A" = false := by decide
  have hf : strContains "Confirmed Fire." "FOREIGN" = false := by decide
  have hcond : ¬ (inBox (22001/1000 : ℚ) (110001/1250 : ℚ) (1/1000)
        ⟨0, 22, 88, 3, 3, "VIIRS_SNPP", 1, 5, "100%", 56250, "WEST_BENGAL"⟩ = true ∧
      withinLimit (22001/1000 : ℚ) (110001/1250 : ℚ) (1/10)
        ⟨0, 22, 88, 3, 3, "VIIRS_SNPP", 1, 5, "100%", 56250, "WEST_BENGAL"⟩ = true) := by
    rintro ⟨-, hwl⟩
    simp only [withinLimit, decide_eq_true_eq] at hwl
    norm_num at hwl
  norm_num [scan_step, verify_land_use, get_region_tag, classify_tags,
    save_fire_event_smart, dbOk, findExisting, findMatch, search_radius,
    limit_km, hv, hf, safe_float, newFireEvent, pixel_size]
  rw [if_neg hcond]
  norm_num
  decide

/-- C5 counterexample: the two example same-cell detections are NOT fused
into one cluster before match-or-insert: processing them through the scan
loop against an empty store yields two stored FireEvents carrying the
individual coordinates and intensities (5 and 7), and no stored event
carries the summed intensity 12. -/
theorem C5_counterexample :
    scan_cycle (.status 200 []) dbOk "Confirmed Fire." 3 ⟨[], 0⟩
      [⟨22, 88, 5, "VIIRS_SNPP", "100%"⟩, ⟨22.001, 88.0008, 7, "VIIRS_SNPP", "100%"⟩]
    = ⟨[⟨0, 22, 88, 3, 3, "VIIRS_SNPP", 1, 5, "100%", 56250, "WEST_BENGAL"⟩,
        ⟨1, 22.001, 88.0008, 3, 3, "VIIRS_SNPP", 1, 7, "100%", 56250, "WEST_BENGAL"⟩], 2⟩ ∧
    ∀ f ∈ (scan_cycle (.status 200 []) dbOk "Confirmed Fire." 3 ⟨[], 0⟩
      [⟨22, 88, 5, "VIIRS_SNPP", "100%"⟩,
       ⟨22.001, 88.0008, 7, "VIIRS_SNPP", "100%"⟩]).fires,
      f.frp_mw ≠ 5 + 7 := by
  have hc : scan_cycle (.status 200 []) dbOk "Confirmed Fire." 3 ⟨[], 0⟩
      [⟨22, 88, 5, "VIIRS_SNPP", "100%"⟩, ⟨22.001, 88.0008, 7, "VIIRS_SNPP", "100%"⟩]
      = ⟨[⟨0, 22, 88, 3, 3, "VIIRS_SNPP", 1, 5, "100%", 56250, "WEST_BENGAL"⟩,
          ⟨1, 22.001, 88.0008, 3, 3, "VIIRS_SNPP", 1, 7, "100%", 56250, "WEST_BENGAL"⟩], 2⟩ := by
    simp [scan_cycle, scan5_step1, scan5_step2]
  refine ⟨hc, ?_⟩
  intro f hf
  rw [hc] at hf
  simp only [List.mem_cons, List.not_mem_nil, or_false] at hf
  rcases hf with h | h <;> subst h <;> norm_num

/-- C5 amended: the pipeline has no clustering stage. Each detection is
passed individually to match-or-insert with the cluster size fixed at 1
(visible in est_area_m2 = 375000 * 1 * 0.15 for both rows); the second
example detection falls inside the fine search box of the first but 0.142
km away, beyond the 0.1 km limit, so the two detections produce two
FireEvents with their individual coordinates and intensities, not one
merged record. -/
theorem C5_no_clustering :
    inBox 22.001 88.0008 (1/1000)
      ⟨0, 22, 88, 3, 3, "VIIRS_SNPP", 1, 5, "100%", 56250, "WEST_BENGAL"⟩ = true ∧
    withinLimit 22.001 88.0008 (1/10)
      ⟨0, 22, 88, 3, 3, "VIIRS_SNPP", 1, 5, "100%", 56250, "WEST_BENGAL"⟩ = false ∧
    (scan_cycle (.status 200 []) dbOk "Confirmed Fire." 3 ⟨[], 0⟩
      [⟨22, 88, 5, "VIIRS_SNPP", "100%"⟩,
       ⟨22.001, 88.0008, 7, "VIIRS_SNPP", "100%"⟩]).fires.length = 2 ∧
    ∀ f ∈ (scan_cycle (.status 200 []) dbOk "Confirmed Fire." 3 ⟨[], 0⟩
      [⟨22, 88, 5, "VIIRS_SNPP", "100%"⟩,
       ⟨22.001, 88.0008, 7, "VIIRS_SNPP", "100%"⟩]).fires,
      f.est_area_m2 = 375000 * 1 * 0.15 ∧ f.alert_count = 1 := by
  have hc : scan_cycle (.status 200 []) dbOk "Confirmed Fire." 3 ⟨[], 0⟩
      [⟨22, 88, 5, "VIIRS_SNPP", "100%"⟩, ⟨22.001, 88.0008, 7, "VIIRS_SNPP", "100%"⟩]
      = ⟨[⟨0, 22, 88, 3, 3, "VIIRS_SNPP", 1, 5, "100%", 56250, "WEST_BENGAL"⟩,
          ⟨1, 22.001, 88.0008, 3, 3, "VIIRS_SNPP", 1, 7, "100%", 56250, "WEST_BENGAL"⟩], 2⟩ := by
    simp [scan_cycle, scan5_step1, scan5_step2]
  refine ⟨?_, ?_, ?_, ?_⟩
  · simp only [inBox]
    norm_num
  · simp only [withinLimit]
    norm_num
  · simp [hc]
  · intro f hf
    rw [hc] at hf
    simp only [List.mem_cons, List.not_mem_nil, or_false] at hf
    rcases hf with h | h <;> subst h <;> norm_num

/-- C6: the quota gate runs before any oracle interaction. For a home-zone
coordinate the oracle is invoked whatever the intensity and whatever it
then returns; for an out-of-zone coordinate with intensity below 20 MW the
function returns the explicit sentinel without an oracle call; hence over
any batch of such below-threshold out-of-zone inputs the number of oracle
calls is zero. -/
theorem C6_quota_gate (lat lon frp : ℚ) (oracle : OracleResult)
    (inputs : List (Detection × OracleResult)) :
    (get_region_tag lat lon = "WEST_BENGAL" →
      (verify_land_use lat lon (get_region_tag lat lon) frp oracle).2 = true) ∧
    (get_region_tag lat lon ≠ "WEST_BENGAL" → frp < 20 →
      verify_land_use lat lon (get_region_tag lat lon) frp oracle
        = ("UNVERIFIED (Quota Saved)", false)) ∧
    ((∀ p ∈ inputs, get_region_tag p.1.latitude p.1.longitude ≠ "WEST_BENGAL"
        ∧ p.1.frp < 20) →
      (inputs.map (fun p => (verify_land_use p.1.latitude p.1.longitude
        (get_region_tag p.1.latitude p.1.longitude) p.1.frp p.2).2)).count true
        = 0) := by
  refine ⟨?_, ?_, ?_⟩
  · intro h
    rw [h]
    simp only [verify_land_use]
    rw [if_neg (by simp)]
    cases oracle with
    | raise => rfl
    | status code elems =>
      simp only
      split <;> rfl
  · intro h1 h2
    simp only [verify_land_use]
    rw [if_pos ⟨h1, h2⟩]
  · intro hall
    induction inputs with
    | nil => rfl
    | cons p ps ih =>
      have hp := hall p (by simp)
      have hhead : (verify_land_use p.1.latitude p.1.longitude
          (get_region_tag p.1.latitude p.1.longitude) p.1.frp p.2).2 = false := by
        simp only [verify_land_use]
        rw [if_pos ⟨hp.1, hp.2⟩]
      have hrest : ∀ q ∈ ps, get_region_tag q.1.latitude q.1.longitude
          ≠ "WEST_BENGAL" ∧ q.1.frp < 20 := fun q hq => hall q (by simp [hq])
      simp [List.count_cons, hhead, ih hrest]

/-- C6 witness: a home-zone coordinate (23.5, 87.9) at 5 MW calls the
oracle; the out-of-zone coordinate (10, 70) at 5 MW returns the sentinel
without a call; a two-element batch of such out-of-zone low-intensity
inputs makes zero oracle calls. -/
theorem C6_quota_gate_witness :
    (verify_land_use 23.5 87.9 (get_region_tag 23.5 87.9) 5 (.status 200 [])).2 = true ∧
    verify_land_use 10 70 (get_region_tag 10 70) 5 (.status 200 [])
      = ("UNVERIFIED (Quota Saved)", false) ∧
    ([((⟨10, 70, 5, "VIIRS_SNPP", "100%"⟩ : Detection), (.status 200 [] : OracleResult)),
      ((⟨12, 75, 19, "MODIS", "100%"⟩ : Detection), (.raise : OracleResult))].map
        (fun p => (verify_land_use p.1.latitude p.1.longitude
          (get_region_tag p.1.latitude p.1.longitude) p.1.frp p.2).2)).count true = 0 := by
  have hwb : get_region_tag 23.5 87.9 = "WEST_BENGAL" := by
    norm_num [get_region_tag]
  have hout : get_region_tag 10 70 = "INDIA_OTHER" := by
    norm_num [get_region_tag]
  have hout2 : get_region_tag 12 75 = "INDIA_OTHER" := by
    norm_num [get_region_tag]
  refine ⟨(C6_quota_gate 23.5 87.9 5 (.status 200 []) []).1 hwb,
    (C6_quota_gate 10 70 5 (.status 200 []) []).2.1 (by rw [hout]; decide) (by norm_num),
    (C6_quota_gate 0 0 0 (.status 200 [])
      [((⟨10, 70, 5, "VIIRS_SNPP", "100%"⟩ : Detection), (.status 200 [] : OracleResult)),
       ((⟨12, 75, 19, "MODIS", "100%"⟩ : Detection), (.raise : OracleResult))]).2.2 ?_⟩
  intro p hp
  simp only [List.mem_cons, List.not_mem_nil, or_false] at hp
  rcases hp with h | h <;> subst h
  · exact ⟨by rw [hout]; decide, by norm_num⟩
  · exact ⟨by rw [hout2]; decide, by norm_num⟩

/-- C7 counterexample: an oracle outage CAN suppress alerting. At (23, 88)
with intensity 600 MW, a raised oracle call yields UNKNOWN, and the scan
loop then rejects the detection (saved = none, store unchanged, no
broadcast) because 600 > 500 and UNKNOWN is not FARM — whereas the same
detection with the oracle reporting farmland is inserted and broadcast. -/
theorem C7_counterexample :
    verify_land_use 23 88 (get_region_tag 23 88) 600 .raise = ("UNKNOWN", true) ∧
    scan_step .raise dbOk "Confirmed Fire." ⟨[], 0⟩
      ⟨23, 88, 600, "VIIRS_SNPP", "100%"⟩ 5
      = ⟨⟨[], 0⟩, true, none, false, false⟩ ∧
    (scan_step (.status 200 [⟨some [("landuse", "farmland")]⟩]) dbOk
      "Confirmed Fire." ⟨[], 0⟩ ⟨23, 88, 600, "VIIRS_SNPP", "100%"⟩ 5).alertSent
      = true := by
  have hv : strContains "VIIRS_SNPP" "GK2A" = false := by decide
  have hf : strContains "Confirmed Fire." "FOREIGN" = false := by decide
  refine ⟨?_, ?_, ?_⟩
  · norm_num [verify_land_use, get_region_tag]
  · norm_num [scan_step, verify_land_use, get_region_tag]
    simp
  · norm_num [scan_step, verify_land_use, get_region_tag, classify_tags,
      tagLookup, save_fire_event_smart, dbOk, findExisting, findMatch,
      search_radius, limit_km, hv, hf, safe_float, newFireEvent, pixel_size]
    simp [hv, hf, save_fire_event_smart, dbOk, findExisting, findMatch,
      search_radius, limit_km, safe_float, newFireEvent, pixel_size]

/-- C7 amended: whenever the oracle call is actually made (the quota gate
does not fire) a raised call or a non-200 status yields UNKNOWN; an UNKNOWN
result never causes rejection for a detection with intensity at most 500
MW (it reaches match-or-insert), but a detection above 500 MW with UNKNOWN
is rejected before match-or-insert, so an oracle outage can suppress
alerting exactly for those detections. -/
theorem C7_fail_open (lat lon frp : ℚ) (region : String) (code : Nat)
    (elems : List OSMElement) (oracle : OracleResult) (beh : DBBehavior)
    (ai_msg : String) (db : DB) (d : Detection) (now_time : Nat) :
    (¬ (region ≠ "WEST_BENGAL" ∧ frp < 20) →
      verify_land_use lat lon region frp .raise = ("UNKNOWN", true)) ∧
    (¬ (region ≠ "WEST_BENGAL" ∧ frp < 20) → code ≠ 200 →
      verify_land_use lat lon region frp (.status code elems) = ("UNKNOWN", true)) ∧
    ((verify_land_use d.latitude d.longitude
        (get_region_tag d.latitude d.longitude) d.frp oracle).1 = "UNKNOWN" →
      d.frp ≤ 500 →
      (scan_step oracle beh ai_msg db d now_time).saved.isSome = true) ∧
    ((verify_land_use d.latitude d.longitude
        (get_region_tag d.latitude d.longitude) d.frp oracle).1 = "UNKNOWN" →
      500 < d.frp →
      (scan_step oracle beh ai_msg db d now_time)
        = ⟨db, (verify_land_use d.latitude d.longitude
            (get_region_tag d.latitude d.longitude) d.frp oracle).2,
           none, false, false⟩) := by
  refine ⟨?_, ?_, ?_, ?_⟩
  · intro h
    simp only [verify_land_use]
    rw [if_neg h]
  · intro h hc
    simp only [verify_land_use]
    rw [if_neg h, if_pos hc]
  · intro hu hle
    have hnot : ¬ ((500 : ℚ) < d.frp) := not_lt.mpr hle
    simp only [scan_step, hu]
    simp [hnot]
  · intro hu hgt
    simp only [scan_step, hu]
    simp [hgt]

/-- C7 witness: concrete instances of the amended statement — a raised call
and an HTTP 500 both yield UNKNOWN at a home-zone point; a 30 MW detection
with UNKNOWN reaches match-or-insert; a 600 MW detection with UNKNOWN is
rejected with the store untouched and no broadcast. -/
theorem C7_fail_open_witness :
    verify_land_use 23 88 "WEST_BENGAL" 30 .raise = ("UNKNOWN", true) ∧
    verify_land_use 23 88 "WEST_BENGAL" 30 (.status 500 []) = ("UNKNOWN", true) ∧
    (scan_step .raise dbOk "Confirmed Fire." ⟨[], 0⟩
      ⟨23, 88, 30, "VIIRS_SNPP", "100%"⟩ 5).saved.isSome = true ∧
    (scan_step .raise dbOk "Confirmed Fire." ⟨[], 0⟩
      ⟨23, 88, 600, "VIIRS_SNPP", "100%"⟩ 5).saved = none ∧
    (scan_step .raise dbOk "Confirmed Fire." ⟨[], 0⟩
      ⟨23, 88, 600, "VIIRS_SNPP", "100%"⟩ 5).alertSent = false := by
  have h1 := C7_fail_open 23 88 30 "WEST_BENGAL" 500 [] .raise dbOk
    "Confirmed Fire." ⟨[], 0⟩ ⟨23, 88, 30, "VIIRS_SNPP", "100%"⟩ 5
  have h2 := C7_fail_open 23 88 600 "WEST_BENGAL" 500 [] .raise dbOk
    "Confirmed Fire." ⟨[], 0⟩ ⟨23, 88, 600, "VIIRS_SNPP", "100%"⟩ 5
  have hu30 : (verify_land_use 23 88 (get_region_tag 23 88) 30 .raise).1
      = "UNKNOWN" := by
    norm_num [verify_land_use, get_region_tag]
  have hu600 : (verify_land_use 23 88 (get_region_tag 23 88) 600 .raise).1
      = "UNKNOWN" := by
    norm_num [verify_land_use, get_region_tag]
  have h4 := h2.2.2.2 hu600 (by norm_num)
  refine ⟨h1.1 (by simp), h1.2.1 (by simp) (by decide),
    h1.2.2.1 hu30 (by norm_num), by rw [h4], by rw [h4]⟩

/-- Every value the tag scan can produce is one of INDUSTRY, FARM, UNKNOWN,
WATER; in particular FOREST is never returned. -/
theorem classify_tags_mem (elems : List OSMElement) :
    ∀ acc : List String,
      classify_tags elems acc ∈ ["INDUSTRY", "FARM", "UNKNOWN", "WATER"] := by
  induction elems with
  | nil =>
    intro acc
    simp only [classify_tags]
    split
    · simp
    split
    · simp
    · simp
  | cons el rest ih =>
    intro acc
    simp only [classify_tags]
    cases el.tags with
    | none => exact ih acc
    | some tags =>
      simp only
      split
      · simp
      split
      · simp
      cases htl : tagLookup tags "landuse" with
      | none => exact ih acc
      | some v => exact ih (acc ++ [v])

/-- C8 counterexample: a quarry landuse tag is NOT mapped to INDUSTRY (it
falls through to UNKNOWN), and a forest landuse tag yields FARM, not
FOREST. -/
theorem C8_counterexample :
    classify_tags [⟨some [("landuse", "quarry")]⟩] [] = "UNKNOWN" ∧
    classify_tags [⟨some [("landuse", "forest")]⟩] [] = "FARM" := by
  exact ⟨rfl, rfl⟩

/-- C8 amended: the mapping returns a value in {FARM, INDUSTRY, WATER,
UNKNOWN} (FOREST is never produced); an `industrial` key or an
industrial/residential/railway landuse value yields INDUSTRY; natural =
water yields WATER; farmland, farm, forest and orchard landuse values all
yield FARM; quarry and mine are unmapped and yield UNKNOWN, as does a
response with no matching tags. -/
theorem C8_tag_mapping :
    (∀ (elems : List OSMElement) (acc : List String),
      classify_tags elems acc ∈ ["INDUSTRY", "FARM", "UNKNOWN", "WATER"]) ∧
    (∀ v : String, classify_tags [⟨some [("landuse", v)]⟩] []
      = if (v == "industrial" || v == "residential" || v == "railway")
          then "INDUSTRY"
        else if (v == "farmland" || v == "farm" || v == "forest" || v == "orchard")
          then "FARM"
        else "UNKNOWN") ∧
    classify_tags [⟨some [("industrial", "yes")]⟩] [] = "INDUSTRY" ∧
    classify_tags [⟨some [("natural", "water")]⟩] [] = "WATER" ∧
    classify_tags [⟨some [("landuse", "mine")]⟩] [] = "UNKNOWN" ∧
    classify_tags [] [] = "UNKNOWN" := by
  refine ⟨classify_tags_mem, ?_, rfl, rfl, rfl, rfl⟩
  intro v
  simp [classify_tags, tagLookup]

/-- C9 counterexample: a 600 MW detection whose land type resolves to
UNKNOWN — exempt from rejection according to the claim — is rejected by the
plausibility filter before match-or-insert (saved = none, store unchanged,
no broadcast). -/
theorem C9_counterexample :
    verify_land_use 23 88 (get_region_tag 23 88) 600 (.status 200 [])
      = ("UNKNOWN", true) ∧
    scan_step (.status 200 []) dbOk "Confirmed Fire." ⟨[], 0⟩
      ⟨23, 88, 600, "VIIRS_SNPP", "100%"⟩ 5
      = ⟨⟨[], 0⟩, true, none, false, false⟩ := by
  constructor
  · norm_num [verify_land_use, get_region_tag, classify_tags]
  · norm_num [scan_step, verify_land_use, get_region_tag, classify_tags]
    simp

/-- C9 amended: for detections that survive the INDUSTRY/WATER rejection,
the plausibility filter rejects exactly those with intensity strictly above
500 MW whose land type is not FARM; a detection at or below 500 MW always
reaches match-or-insert, as does one above 500 MW with land type FARM. -/
theorem C9_plausibility_filter (oracle : OracleResult) (beh : DBBehavior)
    (ai_msg : String) (db : DB) (d : Detection) (now_time : Nat) :
    (verify_land_use d.latitude d.longitude
        (get_region_tag d.latitude d.longitude) d.frp oracle).1 ≠ "INDUSTRY" →
    (verify_land_use d.latitude d.longitude
        (get_region_tag d.latitude d.longitude) d.frp oracle).1 ≠ "WATER" →
    ((500 < d.frp →
      (verify_land_use d.latitude d.longitude
          (get_region_tag d.latitude d.longitude) d.frp oracle).1 ≠ "FARM" →
      (scan_step oracle beh ai_msg db d now_time)
        = ⟨db, (verify_land_use d.latitude d.longitude
            (get_region_tag d.latitude d.longitude) d.frp oracle).2,
           none, false, false⟩) ∧
     (d.frp ≤ 500 →
      (scan_step oracle beh ai_msg db d now_time).saved.isSome = true) ∧
     (500 < d.frp →
      (verify_land_use d.latitude d.longitude
          (get_region_tag d.latitude d.longitude) d.frp oracle).1 = "FARM" →
      (scan_step oracle beh ai_msg db d now_time).saved.isSome = true)) := by
  intro hInd hWat
  refine ⟨?_, ?_, ?_⟩
  · intro hgt hFarm
    simp only [scan_step]
    simp [hInd, hWat, hFarm, hgt]
  · intro hle
    have hnot : ¬ ((500 : ℚ) < d.frp) := not_lt.mpr hle
    simp only [scan_step]
    simp [hInd, hWat, hnot]
  · intro hgt hFarm
    simp only [scan_step]
    simp [hInd, hWat, hFarm, hgt]

/-- C9 witness: at (23, 88) with an empty oracle response (UNKNOWN land
type), a 600 MW detection is rejected, a 400 MW one reaches
match-or-insert; with a farmland response (FARM), a 600 MW detection also
reaches match-or-insert. -/
theorem C9_plausibility_filter_witness :
    (scan_step (.status 200 []) dbOk "Confirmed Fire." ⟨[], 0⟩
      ⟨23, 88, 600, "VIIRS_SNPP", "100%"⟩ 5).saved = none ∧
    (scan_step (.status 200 []) dbOk "Confirmed Fire." ⟨[], 0⟩
      ⟨23, 88, 400, "VIIRS_SNPP", "100%"⟩ 5).saved.isSome = true ∧
    (scan_step (.status 200 [⟨some [("landuse", "farmland")]⟩]) dbOk
      "Confirmed Fire." ⟨[], 0⟩
      ⟨23, 88, 600, "VIIRS_SNPP", "100%"⟩ 5).saved.isSome = true := by
  have hu600 : (verify_land_use 23 88 (get_region_tag 23 88) 600
      (.status 200 [])).1 = "UNKNOWN" := by
    norm_num [verify_land_use, get_region_tag, classify_tags]
  have hu400 : (verify_land_use 23 88 (get_region_tag 23 88) 400
      (.status 200 [])).1 = "UNKNOWN" := by
    norm_num [verify_land_use, get_region_tag, classify_tags]
  have hfarm : (verify_land_use 23 88 (get_region_tag 23 88) 600
      (.status 200 [⟨some [("landuse", "farmland")]⟩])).1 = "FARM" := by
    norm_num [verify_land_use, get_region_tag, classify_tags, tagLookup]
    decide
  have h600 := C9_plausibility_filter (.status 200 []) dbOk "Confirmed Fire."
    ⟨[], 0⟩ ⟨23, 88, 600, "VIIRS_SNPP", "100%"⟩ 5
    (by rw [hu600]; decide) (by rw [hu600]; decide)
  have h400 := C9_plausibility_filter (.status 200 []) dbOk "Confirmed Fire."
    ⟨[], 0⟩ ⟨23, 88, 400, "VIIRS_SNPP", "100%"⟩ 5
    (by rw [hu400]; decide) (by rw [hu400]; decide)
  have hf600 := C9_plausibility_filter (.status 200 [⟨some [("landuse", "farmland")]⟩])
    dbOk "Confirmed Fire." ⟨[], 0⟩ ⟨23, 88, 600, "VIIRS_SNPP", "100%"⟩ 5
    (by rw [hfarm]; decide) (by rw [hfarm]; decide)
  refine ⟨?_, h400.2.1 (by norm_num), hf600.2.2 (by norm_num) hfarm⟩
  rw [h600.1 (by norm_num) (by rw [hu600]; decide)]

/-- C10: every raised store interaction inside save_fire_event_smart is
caught by its try/except and yields False — the merge return value — with
the store unchanged, so during a store outage a genuinely new fire is
neither stored nor escalated; and an insert POST answered with a non-2xx
status still returns True with no row persisted, so (concrete scan
instances) the outage case produces no alert while the failed-POST case
broadcasts an alert for an event that was never stored. -/
theorem C10_store_failure (db : DB) (lat lon : ℚ) (source : String)
    (cluster_size : Nat) (region : String) (frp : ℚ) (confidence : String)
    (now_time : Nat) (patchC : DBCall Unit) (postC : DBCall Nat) (s : Nat)
    (got200 : Bool) :
    save_fire_event_smart ⟨.raise, patchC, postC⟩ db lat lon source
        cluster_size region frp confidence now_time = (false, db) ∧
    ((findMatch (if got200 then findExisting db lat lon (search_radius source)
          else []) lat lon (limit_km source)).isSome = true →
      save_fire_event_smart ⟨.ok got200, .raise, postC⟩ db lat lon source
        cluster_size region frp confidence now_time = (false, db)) ∧
    (findMatch (if got200 then findExisting db lat lon (search_radius source)
          else []) lat lon (limit_km source) = none →
      save_fire_event_smart ⟨.ok got200, patchC, .raise⟩ db lat lon source
        cluster_size region frp confidence now_time = (false, db)) ∧
    (findMatch (if got200 then findExisting db lat lon (search_radius source)
          else []) lat lon (limit_km source) = none → s ≠ 200 → s ≠ 201 →
      save_fire_event_smart ⟨.ok got200, patchC, .ok s⟩ db lat lon source
        cluster_size region frp confidence now_time = (true, db)) ∧
    scan_step (.status 200 []) ⟨.raise, .ok (), .ok 201⟩ "Confirmed Fire."
      ⟨[], 0⟩ ⟨23.5, 87.9, 60, "VIIRS_SNPP", "100%"⟩ 5
      = ⟨⟨[], 0⟩, true, some false, false, false⟩ ∧
    scan_step (.status 200 []) ⟨.ok true, .ok (), .ok 400⟩ "Confirmed Fire."
      ⟨[], 0⟩ ⟨23.5, 87.9, 60, "VIIRS_SNPP", "100%"⟩ 5
      = ⟨⟨[], 0⟩, true, some true, true, true⟩ := by
  have hv : strContains "VIIRS_SNPP" "GK2A" = false := by decide
  have hf : strContains "Confirmed Fire." "FOREIGN" = false := by decide
  refine ⟨rfl, ?_, ?_, ?_, ?_, ?_⟩
  · intro hm
    cases h : findMatch (if got200 then findExisting db lat lon (search_radius source)
        else []) lat lon (limit_km source) with
    | none => rw [h] at hm; simp at hm
    | some m => simp only [save_fire_event_smart, h]
  · intro h
    simp only [save_fire_event_smart, h]
  · intro h h200 h201
    simp only [save_fire_event_smart, h]
    simp [h200, h201]
  · norm_num [scan_step, verify_land_use, get_region_tag, classify_tags,
      save_fire_event_smart, hv, hf]
    simp
  · norm_num [scan_step, verify_land_use, get_region_tag, classify_tags,
      save_fire_event_smart, findExisting, findMatch, hv, hf, safe_float]
    decide

/-- C10 witness: concrete instances — a raised lookup, a raised PATCH on a
matched row, and a raised POST all return (false, store unchanged); a POST
answered 400 returns (true, store unchanged). -/
theorem C10_store_failure_witness :
    save_fire_event_smart ⟨.raise, .ok (), .ok 201⟩ ⟨[], 0⟩ 23.5 87.9
      "VIIRS_SNPP" 1 "WEST_BENGAL" 60 "100%" 5 = (false, ⟨[], 0⟩) ∧
    save_fire_event_smart ⟨.ok true, .raise, .ok 201⟩ wbDB 22 88
      "VIIRS_SNPP" 1 "WEST_BENGAL" 30 "100%" 5 = (false, wbDB) ∧
    save_fire_event_smart ⟨.ok true, .ok (), .raise⟩ ⟨[], 0⟩ 23.5 87.9
      "VIIRS_SNPP" 1 "WEST_BENGAL" 60 "100%" 5 = (false, ⟨[], 0⟩) ∧
    save_fire_event_smart ⟨.ok true, .ok (), .ok 400⟩ ⟨[], 0⟩ 23.5 87.9
      "VIIRS_SNPP" 1 "WEST_BENGAL" 60 "100%" 5 = (true, ⟨[], 0⟩) := by
  have hv : strContains "VIIRS_SNPP" "GK2A" = false := by decide
  have hb : inBox 22 88 0.001 wbEvent = true := by
    simp only [inBox, wbEvent]
    norm_num
  have hw : withinLimit 22 88 0.1 wbEvent = true := by
    simp only [withinLimit, wbEvent]
    norm_num
  have hsome : (findMatch (if true then findExisting wbDB 22 88
      (search_radius "VIIRS_SNPP") else []) 22 88
      (limit_km "VIIRS_SNPP")).isSome = true := by
    simp [findExisting, findMatch, search_radius, limit_km, hv, wbDB, hb, hw]
  have hnone : findMatch (if true then findExisting (⟨[], 0⟩ : DB) 23.5 87.9
      (search_radius "VIIRS_SNPP") else []) 23.5 87.9
      (limit_km "VIIRS_SNPP") = none := by
    simp [findExisting, findMatch]
  exact ⟨(C10_store_failure ⟨[], 0⟩ 23.5 87.9 "VIIRS_SNPP" 1 "WEST_BENGAL" 60
      "100%" 5 (.ok ()) (.ok 201) 400 true).1,
    (C10_store_failure wbDB 22 88 "VIIRS_SNPP" 1 "WEST_BENGAL" 30
      "100%" 5 (.ok ()) (.ok 201) 400 true).2.1 hsome,
    (C10_store_failure ⟨[], 0⟩ 23.5 87.9 "VIIRS_SNPP" 1 "WEST_BENGAL" 60
      "100%" 5 (.ok ()) (.ok 201) 400 true).2.2.1 hnone,
    (C10_store_failure ⟨[], 0⟩ 23.5 87.9 "VIIRS_SNPP" 1 "WEST_BENGAL" 60
      "100%" 5 (.ok ()) (.ok 201) 400 true).2.2.2.1 hnone
      (by decide) (by decide)⟩

end Satark
